import Mathlib

/-!
Verification development for the multi-stage anodizing experiment engine.

Shallow embedding of the core modules:
  * `control_strategy.py`  — Linear / PID / FeedforwardWithFeedback strategies
  * `stage_manager.py`     — stage list with validation
  * `power_supply.py`      — register reads and derived voltage/current getters
  * `data_collector.py`    — storage/plot queue fan-out and storage worker
  * `experiment_controller.py` — `collect_data_with_sample_rate` step loop

Floating-point values are modelled by rationals `ℚ` (exact arithmetic over
the same algebraic expressions the Python code computes); wall-clock time is
passed explicitly where the code calls `time.time()`.  Timestamps, logging
and the `control_mode` / gain metadata carried inside `ExperimentData` are
not referenced by any property and are omitted from the record.
-/

/-- Python's `int()` conversion on a rational: truncation toward zero
(`⌈q⌉` for negative `q`, `⌊q⌋` otherwise). -/
def pyInt (q : ℚ) : ℤ :=
  if q < 0 then ⌈q⌉ else ⌊q⌋

namespace control_strategy

/-- `LinearStrategy` state: just the setpoint (`control_strategy.py`). -/
structure LinearStrategy where
  setpoint : ℚ
deriving DecidableEq

/-- `LinearStrategy.set_setpoint`. -/
def LinearStrategy.set_setpoint (_s : LinearStrategy) (value : ℚ) : LinearStrategy :=
  ⟨value⟩

/-- `LinearStrategy.update`: returns the setpoint, ignores the measurement. -/
def LinearStrategy.update (s : LinearStrategy) (_measured_value : ℚ) : ℚ :=
  s.setpoint

/-- `PIDStrategy` state (`control_strategy.py`): gains, output limits,
setpoint, accumulated integral, previous error and the `time.time()`
value captured at the last call. -/
structure PIDStrategy where
  Kp : ℚ
  Ki : ℚ
  Kd : ℚ
  output_limits : ℚ × ℚ
  setpoint : ℚ
  integral : ℚ
  previous_error : ℚ
  last_time : ℚ
deriving DecidableEq

/-- `PIDStrategy.set_setpoint`: stores the value and resets the integral,
the previous error and the reference time (`now` models `time.time()`). -/
def PIDStrategy.set_setpoint (s : PIDStrategy) (value : ℚ) (now : ℚ) : PIDStrategy :=
  { s with setpoint := value, integral := 0, previous_error := 0, last_time := now }

/-- The divisor used by `PIDStrategy.update`: the wall-clock delta, with any
delta `≤ 0` replaced by the floor `1e-16`. -/
def effective_delta (last_time now : ℚ) : ℚ :=
  if now - last_time ≤ 0 then 1 / 10 ^ 16 else now - last_time

/-- `PIDStrategy.update` (`now` models `time.time()`); returns the updated
state together with the clamped output. -/
def PIDStrategy.update (s : PIDStrategy) (measured_value : ℚ) (now : ℚ) :
    PIDStrategy × ℚ :=
  let delta_time := effective_delta s.last_time now
  let error := s.setpoint - measured_value
  let integral := s.integral + error * delta_time
  let derivative := (error - s.previous_error) / delta_time
  let output := s.Kp * error + s.Ki * integral + s.Kd * derivative
  let output := max s.output_limits.1 (min output s.output_limits.2)
  ({ s with integral := integral, previous_error := error, last_time := now }, output)

/-- `FeedforwardWithFeedbackStrategy` state (`control_strategy.py`). -/
structure FeedforwardWithFeedbackStrategy where
  setpoint : ℚ
  Kp : ℚ
  output_limits : ℚ × ℚ
deriving DecidableEq

/-- `FeedforwardWithFeedbackStrategy.set_setpoint`. -/
def FeedforwardWithFeedbackStrategy.set_setpoint
    (s : FeedforwardWithFeedbackStrategy) (value : ℚ) : FeedforwardWithFeedbackStrategy :=
  { s with setpoint := value }

/-- `FeedforwardWithFeedbackStrategy.update`:
`output = setpoint + Kp*(setpoint - measured)` clamped to `output_limits`. -/
def FeedforwardWithFeedbackStrategy.update
    (s : FeedforwardWithFeedbackStrategy) (measured_value : ℚ) : ℚ :=
  let error := s.setpoint - measured_value
  let output := s.setpoint + s.Kp * error
  max s.output_limits.1 (min output s.output_limits.2)

end control_strategy

namespace stage_manager

/-- One experiment stage, as the dict built by `StageManager.add_stage`. -/
structure Stage where
  voltage_start : ℚ
  voltage_end : ℚ
  time : ℚ
deriving DecidableEq

/-- `StageManager.add_stage`: validates the arguments and appends the new
stage; a failing validation raises `ValueError("Voltage and time values must
be positive.")`, modelled as the `Except.error` branch. -/
def add_stage (stages : List Stage) (voltage_start voltage_end time_duration : ℚ) :
    Except String (List Stage) :=
  if voltage_start < 0 ∨ voltage_end < 0 ∨ time_duration ≤ 0 then
    .error "Voltage and time values must be positive."
  else
    .ok (stages ++ [⟨voltage_start, voltage_end, time_duration⟩])

end stage_manager

namespace power_supply

/-- Outcome of one Modbus holding-register read as `PowerSupply.read` sees
it: a normal response carrying the 16-bit register values, an error
response (`response.isError()`), or a raised exception. -/
inductive ReadResult where
  | ok (regs : List ℕ)
  | err
  | exn
deriving DecidableEq

/-- `PowerSupply.read`: error responses and exceptions are mapped to the raw
value `0`; a one-register read returns `registers[0]`, a two-register read
returns `(registers[0] << 16) | registers[1]`. -/
def read (r : ReadResult) (reg_len : ℕ) : ℕ :=
  match r with
  | .err => 0
  | .exn => 0
  | .ok regs =>
      if reg_len ≤ 1 then regs.headD 0
      else ((regs.headD 0) <<< 16) ||| (regs.getD 1 0)

/-- Protection-flag masks from `config.py`. -/
def OVP : ℕ := 0x01
/-- Protection-flag mask `Config.OCP`. -/
def OCP : ℕ := 0x02
/-- Protection-flag mask `Config.OPP`. -/
def OPP : ℕ := 0x04
/-- Protection-flag mask `Config.OTP`. -/
def OTP : ℕ := 0x08
/-- Protection-flag mask `Config.SCP`. -/
def SCP : ℕ := 0x10

/-- The five protection flags `PowerSupply.read_protection_state` extracts
from the protection-state register value, in order OVP, OCP, OPP, OTP, SCP. -/
def read_protection_state_flags (protection_state_int : ℕ) : ℕ × ℕ × ℕ × ℕ × ℕ :=
  (protection_state_int &&& OVP,
   (protection_state_int &&& OCP) >>> 1,
   (protection_state_int &&& OPP) >>> 2,
   (protection_state_int &&& OTP) >>> 3,
   (protection_state_int &&& SCP) >>> 4)

/-- `PowerSupply.get_voltage`: the raw register value divided by the scale
factor `V_dot`; total, always a number. -/
def get_voltage (V_dot : ℚ) (r : ReadResult) : ℚ :=
  (read r 1 : ℚ) / V_dot

/-- `PowerSupply.get_current`: the raw register value divided by `A_dot`. -/
def get_current (A_dot : ℚ) (r : ReadResult) : ℚ :=
  (read r 1 : ℚ) / A_dot

/-- `PowerSupply.get_voltage` as the engine consumes it: Python returns a
plain float, so under the engine's `Optional` view the result is always
`some`. -/
def get_voltage_opt (V_dot : ℚ) (r : ReadResult) : Option ℚ :=
  some (get_voltage V_dot r)

/-- `PowerSupply.get_current` under the engine's `Optional` view. -/
def get_current_opt (A_dot : ℚ) (r : ReadResult) : Option ℚ :=
  some (get_current A_dot r)

end power_supply

namespace experiment_data

/-- One `ExperimentData` record (`experiment_data.py`), restricted to the
fields the properties talk about; the wall-clock `timestamp`, the constant
`control_mode` string and the per-strategy gain metadata are omitted. -/
structure ExperimentData where
  target_voltage : ℚ
  measured_voltage : ℚ
  control_signal : ℚ
  current : ℚ
deriving DecidableEq

end experiment_data

namespace data_collector

open experiment_data

/-- A `queue.Queue(maxsize)` is full exactly when `maxsize > 0` and the
queue already holds at least `maxsize` items (`maxsize ≤ 0` means
unbounded). -/
def queue_full (maxsize len : ℕ) : Prop :=
  0 < maxsize ∧ maxsize ≤ len

instance (maxsize len : ℕ) : Decidable (queue_full maxsize len) :=
  inferInstanceAs (Decidable (_ ∧ _))

/-- `DataCollector` queue state (`data_collector.py`): the optional plot
queue (present iff `has_plot_queue`) holding `(measured_voltage, current)`
pairs, and the storage queue of capacity `storage_maxsize`
(`max_queue_size`, default 1000) whose `none` element is the `close()`
sentinel. -/
structure DataCollector where
  has_plot_queue : Bool
  plot_maxsize : ℕ
  plot_queue : List (ℚ × ℚ)
  storage_maxsize : ℕ
  storage_queue : List (Option ExperimentData)
deriving DecidableEq

/-- `DataCollector.collect_data_for_stage`: `put_nowait` on the plot queue,
then `put_nowait` on the storage queue, inside one `try`.  A `queue.Full`
raised by either put is caught by the shared handler, which only logs
"Storage queue is full. Dropping datasets to prevent blocking." — so a full
plot queue also skips the storage enqueue, and a full storage queue drops
the record. -/
def collect_data_for_stage (c : DataCollector) (d : ExperimentData) : DataCollector :=
  if c.has_plot_queue ∧ queue_full c.plot_maxsize c.plot_queue.length then
    c
  else
    let c1 :=
      if c.has_plot_queue then
        { c with plot_queue := c.plot_queue ++ [(d.measured_voltage, d.current)] }
      else c
    if queue_full c1.storage_maxsize c1.storage_queue.length then c1
    else { c1 with storage_queue := c1.storage_queue ++ [some d] }

/-- The storage worker's drain of its queue (`DataCollector._storage_worker`):
records are handed to `storage_manager.store_data` strictly in FIFO order;
the `none` sentinel makes the worker exit. -/
def storage_worker : List (Option ExperimentData) → List ExperimentData
  | [] => []
  | none :: _ => []
  | some d :: rest => d :: storage_worker rest

end data_collector

namespace experiment_controller

open experiment_data stage_manager

/-- The control-strategy interface the engine is injected with
(`set_setpoint` and `update` over an abstract strategy state `σ`). -/
structure Strategy (σ : Type) where
  set_setpoint : σ → ℚ → σ
  update : σ → ℚ → σ × ℚ

/-- The engine's environment: the injected strategy, the outcome of the
`k`-th `get_voltage` / `get_current` call (`none` models Python `None`),
and the device's protection-state register value over time.  The register
trace is part of the environment so that (in)dependence of the run on it
can be stated. -/
structure Env (σ : Type) where
  strategy : Strategy σ
  get_voltage : ℕ → Option ℚ
  get_current : ℕ → Option ℚ
  protection_state : ℕ → ℕ

/-- The engine loop's mutable state: the global step counter `n` (indexing
the read traces), the strategy state, the `current_setpoint` /
`last_measured_voltage` / `last_control_signal` / `last_current` locals of
`collect_data_with_sample_rate`, the sequence of `set_voltage` writes and
the sequence of records handed to the data collector. -/
structure LoopState (σ : Type) where
  n : ℕ
  strat : σ
  current_setpoint : ℚ
  last_measured_voltage : ℚ
  last_control_signal : ℚ
  last_current : ℚ
  writes : List ℚ
  samples : List ExperimentData

/-- `steps = max(1, int(duration * sample_rate))`
(`experiment_controller.py` line 41; `int()` truncates toward zero). -/
def steps (duration sample_rate : ℚ) : ℤ :=
  max 1 (pyInt (duration * sample_rate))

/-- `increment = (voltage_end - voltage_start) / steps if steps != 0 else 0.0`
(`experiment_controller.py` line 42). -/
def increment (voltage_start voltage_end : ℚ) (s : ℤ) : ℚ :=
  if s ≠ 0 then (voltage_end - voltage_start) / (s : ℚ) else 0

/-- One iteration of the inner `for step in range(steps)` loop of
`collect_data_with_sample_rate`: recompute the target, update the setpoint
if it changed, read voltage and current (substituting the last values on
`None`), run the strategy, write the control signal to the device, and
emit one record to the data collector. -/
def stepBody (env : Env σ) (voltage_start inc : ℚ) (step : ℕ) (s : LoopState σ) :
    LoopState σ :=
  let target_voltage := voltage_start + inc * step
  let stratSp :=
    if s.current_setpoint ≠ target_voltage then
      (env.strategy.set_setpoint s.strat target_voltage, target_voltage)
    else (s.strat, s.current_setpoint)
  let measured_voltage :=
    match env.get_voltage s.n with
    | none => s.last_measured_voltage
    | some v => v
  let current :=
    match env.get_current s.n with
    | none => s.last_current
    | some c => c
  let upd := env.strategy.update stratSp.1 measured_voltage
  { n := s.n + 1,
    strat := upd.1,
    current_setpoint := stratSp.2,
    last_measured_voltage := measured_voltage,
    last_control_signal := upd.2,
    last_current := current,
    writes := s.writes ++ [upd.2],
    samples := s.samples ++ [⟨target_voltage, measured_voltage, upd.2, current⟩] }

/-- The inner step loop run for `step = 0 .. k-1`. -/
def stepLoop (env : Env σ) (voltage_start inc : ℚ) : ℕ → LoopState σ → LoopState σ
  | 0, s => s
  | k + 1, s => stepBody env voltage_start inc k (stepLoop env voltage_start inc k s)

/-- One stage of `collect_data_with_sample_rate`: the prologue (initial
`set_voltage(voltage_start)`, initial setpoint, reset of the `last_*`
locals), the step loop, the conditional final `set_voltage(voltage_end)`
(executed only when `current_voltage != voltage_end`, and `current_voltage`
still holds `voltage_start` there), and the unconditional final record with
`target_voltage = voltage_end`. -/
def runStage (env : Env σ) (sample_rate : ℚ) (stage : Stage) (s : LoopState σ) :
    LoopState σ :=
  let voltage_start := stage.voltage_start
  let voltage_end := stage.voltage_end
  let st := steps stage.time sample_rate
  let inc := increment voltage_start voltage_end st
  let s1 : LoopState σ :=
    { s with writes := s.writes ++ [voltage_start],
             strat := env.strategy.set_setpoint s.strat voltage_start,
             current_setpoint := voltage_start,
             last_measured_voltage := voltage_start,
             last_control_signal := voltage_start,
             last_current := 0 }
  let s2 := stepLoop env voltage_start inc st.toNat s1
  let s3 :=
    if voltage_start ≠ voltage_end then { s2 with writes := s2.writes ++ [voltage_end] }
    else s2
  { s3 with samples := s3.samples ++
      [⟨voltage_end, s3.last_measured_voltage, s3.last_control_signal, s3.last_current⟩] }

/-- `ExperimentController.collect_data_with_sample_rate`: the stage loop. -/
def collect_data_with_sample_rate (env : Env σ) (stages : List Stage)
    (sample_rate : ℚ) (s : LoopState σ) : LoopState σ :=
  stages.foldl (fun acc stage => runStage env sample_rate stage acc) s

/-- The engine's state at the start of a run. -/
def initState (strat0 : σ) : LoopState σ :=
  { n := 0, strat := strat0, current_setpoint := 0, last_measured_voltage := 0,
    last_control_signal := 0, last_current := 0, writes := [], samples := [] }

/-- The `LinearStrategy` packaged behind the injected-strategy interface. -/
def linearStrategy : Strategy control_strategy.LinearStrategy :=
  { set_setpoint := control_strategy.LinearStrategy.set_setpoint,
    update := fun s m => (s, s.update m) }

/-- An engine environment whose device reads go through the real
`PowerSupply` gateway: `get_voltage`/`get_current` always return `some`
because `PowerSupply.read` maps failed reads to the raw value `0`. -/
def powerSupplyEnv (strategy : Strategy σ) (V_dot A_dot : ℚ)
    (vreads creads : ℕ → power_supply.ReadResult) (protection : ℕ → ℕ) : Env σ :=
  { strategy := strategy,
    get_voltage := fun k => power_supply.get_voltage_opt V_dot (vreads k),
    get_current := fun k => power_supply.get_current_opt A_dot (creads k),
    protection_state := protection }

/-- Total number of records the stage loop hands to the data collector over
a whole run: `steps + 1` per stage. -/
def expected_total (stages : List stage_manager.Stage) (sample_rate : ℚ) : ℕ :=
  (stages.map (fun st => (steps st.time sample_rate).toNat + 1)).sum

/-- A concrete environment for evaluating runs: injected `LinearStrategy`,
device reads always `0`, and the device's protection-state register
reporting all five protection flags set (`0x1F`). -/
def envLin : Env control_strategy.LinearStrategy :=
  { strategy := linearStrategy,
    get_voltage := fun _ => some 0,
    get_current := fun _ => some 0,
    protection_state := fun _ => 0x1F }

/-- A concrete environment whose reads go through the `PowerSupply` gateway
and whose every register read fails. -/
def envPSfail : Env control_strategy.LinearStrategy :=
  powerSupplyEnv linearStrategy 1 1 (fun _ => .err) (fun _ => .err) (fun _ => 0)

/-- A concrete environment whose gateway reports every read as `None`. -/
def envNone : Env control_strategy.LinearStrategy :=
  { strategy := linearStrategy,
    get_voltage := fun _ => none,
    get_current := fun _ => none,
    protection_state := fun _ => 0 }

end experiment_controller

open control_strategy stage_manager power_supply experiment_data data_collector
open experiment_controller

/-! ### Helper lemmas about the engine's step loop -/

theorem stepLoop_zero (env : Env σ) (v0 inc : ℚ) (s : LoopState σ) :
    stepLoop env v0 inc 0 s = s := rfl

theorem stepLoop_succ (env : Env σ) (v0 inc : ℚ) (k : ℕ) (s : LoopState σ) :
    stepLoop env v0 inc (k + 1) s = stepBody env v0 inc k (stepLoop env v0 inc k s) := rfl

theorem stepLoop_one (env : Env σ) (v0 inc : ℚ) (s : LoopState σ) :
    stepLoop env v0 inc 1 s = stepBody env v0 inc 0 s := rfl

theorem stepLoop_two (env : Env σ) (v0 inc : ℚ) (s : LoopState σ) :
    stepLoop env v0 inc 2 s =
      stepBody env v0 inc 1 (stepBody env v0 inc 0 s) := rfl

theorem stepBody_samples (env : Env σ) (v0 inc : ℚ) (k : ℕ) (s : LoopState σ) :
    ∃ d : ExperimentData, d.target_voltage = v0 + inc * k ∧
      (stepBody env v0 inc k s).samples = s.samples ++ [d] := by
  refine ⟨_, rfl, rfl⟩

theorem stepLoop_samples_target (env : Env σ) (v0 inc : ℚ) (n : ℕ) (s : LoopState σ) :
    (stepLoop env v0 inc n s).samples.map ExperimentData.target_voltage =
      s.samples.map ExperimentData.target_voltage ++
        (List.range n).map (fun k => v0 + inc * k) := by
  induction n with
  | zero => simp [stepLoop_zero]
  | succ k ih =>
      obtain ⟨d, hd, hsamp⟩ :=
        stepBody_samples env v0 inc k (stepLoop env v0 inc k s)
      simp [stepLoop_succ, hsamp, hd, ih, List.range_succ]

theorem stepLoop_samples_length (env : Env σ) (v0 inc : ℚ) (n : ℕ) (s : LoopState σ) :
    (stepLoop env v0 inc n s).samples.length = s.samples.length + n := by
  induction n with
  | zero => simp [stepLoop_zero]
  | succ k ih => simp [stepLoop_succ, stepBody, ih, Nat.add_assoc]

theorem stepBody_writes (env : Env σ) (v0 inc : ℚ) (k : ℕ) (s : LoopState σ) :
    ∃ c : ℚ, (stepBody env v0 inc k s).writes = s.writes ++ [c] :=
  ⟨_, rfl⟩

theorem stepLoop_writes (env : Env σ) (v0 inc : ℚ) (n : ℕ) (s : LoopState σ) :
    ∃ w : List ℚ, w.length = n ∧ (stepLoop env v0 inc n s).writes = s.writes ++ w := by
  induction n with
  | zero => exact ⟨[], rfl, by simp [stepLoop_zero]⟩
  | succ k ih =>
      obtain ⟨w, hw, hwr⟩ := ih
      obtain ⟨c, hc⟩ := stepBody_writes env v0 inc k (stepLoop env v0 inc k s)
      exact ⟨w ++ [c], by simp [hw], by simp [stepLoop_succ, hc, hwr]⟩

theorem steps_pos (duration sample_rate : ℚ) : 0 < steps duration sample_rate := by
  have h : (1 : ℤ) ≤ max 1 (pyInt (duration * sample_rate)) := le_max_left _ _
  exact lt_of_lt_of_le zero_lt_one h

theorem runStage_samples_target (env : Env σ) (sample_rate : ℚ) (stage : Stage)
    (s : LoopState σ) :
    (runStage env sample_rate stage s).samples.map ExperimentData.target_voltage =
      s.samples.map ExperimentData.target_voltage ++
        (List.range (steps stage.time sample_rate).toNat).map
          (fun k => stage.voltage_start +
            increment stage.voltage_start stage.voltage_end
              (steps stage.time sample_rate) * k) ++
        [stage.voltage_end] := by
  unfold runStage
  by_cases h : stage.voltage_start ≠ stage.voltage_end <;>
    simp [h, stepLoop_samples_target]

theorem runStage_samples_length (env : Env σ) (sample_rate : ℚ) (stage : Stage)
    (s : LoopState σ) :
    (runStage env sample_rate stage s).samples.length =
      s.samples.length + (steps stage.time sample_rate).toNat + 1 := by
  unfold runStage
  by_cases h : stage.voltage_start ≠ stage.voltage_end <;>
    simp [h, stepLoop_samples_length]

theorem collect_samples_length (env : Env σ) (stages : List Stage)
    (sample_rate : ℚ) (s : LoopState σ) :
    (collect_data_with_sample_rate env stages sample_rate s).samples.length =
      s.samples.length + expected_total stages sample_rate := by
  induction stages generalizing s with
  | nil => simp [collect_data_with_sample_rate, expected_total]
  | cons st rest ih =>
      have h1 : collect_data_with_sample_rate env (st :: rest) sample_rate s =
          collect_data_with_sample_rate env rest sample_rate
            (runStage env sample_rate st s) := by
        simp [collect_data_with_sample_rate]
      rw [h1, ih, runStage_samples_length]
      simp [expected_total]
      ring

/-! ### Claim theorems: control strategies and stage manager -/

/-- C6: `FeedforwardWithFeedbackStrategy.update` returns
`setpoint + Kp*(setpoint - measured)` clamped to the configured output
limits; for `setpoint = 10`, `measured = 8`, `Kp = 0.1` the pre-clamp value
`setpoint + Kp*(setpoint - measured)` is `10.2 = 51/5`, which is also the
returned value under the code's default limits `(0, 100)`. -/
theorem C6_feedforward_update :
    (∀ (s : FeedforwardWithFeedbackStrategy) (measured : ℚ),
        s.update measured =
          max s.output_limits.1
            (min (s.setpoint + s.Kp * (s.setpoint - measured)) s.output_limits.2))
    ∧ (10 : ℚ) + (1 / 10) * ((10 : ℚ) - 8) = 51 / 5
    ∧ FeedforwardWithFeedbackStrategy.update ⟨10, 1 / 10, (0, 100)⟩ 8 = 51 / 5 := by
  refine ⟨fun s measured => rfl, by norm_num, ?_⟩
  show max (0 : ℚ) (min (10 + 1 / 10 * (10 - 8)) 100) = 51 / 5
  rw [min_def, max_def]
  norm_num

/-- C7: `PIDStrategy.set_setpoint` resets the accumulated integral and the
previous error to `0`; consequently two PID states agreeing on the gains
and output limits become identical after the same `set_setpoint` call, so
integral history accumulated before the call cannot influence any
subsequent `update`. -/
theorem C7_pid_set_setpoint_resets :
    ∀ (s₁ s₂ : PIDStrategy) (value now : ℚ),
      (s₁.set_setpoint value now).integral = 0
      ∧ (s₁.set_setpoint value now).previous_error = 0
      ∧ (s₁.Kp = s₂.Kp → s₁.Ki = s₂.Ki → s₁.Kd = s₂.Kd →
          s₁.output_limits = s₂.output_limits →
          s₁.set_setpoint value now = s₂.set_setpoint value now) := by
  intro s₁ s₂ value now
  refine ⟨rfl, rfl, fun h1 h2 h3 h4 => ?_⟩
  cases s₁
  cases s₂
  simp_all [PIDStrategy.set_setpoint]

/-- Witness for C7: a PID state with accumulated integral `1000` and one
with integral `0` coincide after the same `set_setpoint` call. -/
theorem C7_pid_set_setpoint_resets_witness :
    (PIDStrategy.set_setpoint ⟨1, 2, 3, (0, 102), 5, 1000, 7, 9⟩ 4 11).integral = 0
    ∧ PIDStrategy.set_setpoint ⟨1, 2, 3, (0, 102), 5, 1000, 7, 9⟩ 4 11 =
        PIDStrategy.set_setpoint ⟨1, 2, 3, (0, 102), 0, 0, 0, 0⟩ 4 11 :=
  ⟨(C7_pid_set_setpoint_resets ⟨1, 2, 3, (0, 102), 5, 1000, 7, 9⟩
      ⟨1, 2, 3, (0, 102), 0, 0, 0, 0⟩ 4 11).1,
   (C7_pid_set_setpoint_resets ⟨1, 2, 3, (0, 102), 5, 1000, 7, 9⟩
      ⟨1, 2, 3, (0, 102), 0, 0, 0, 0⟩ 4 11).2.2 rfl rfl rfl rfl⟩

/-- C10: the divisor `PIDStrategy.update` uses for the integral and
derivative computation is `effective_delta`, and it is strictly positive
for every state and call time: any wall-clock delta `≤ 0` is replaced by
the floor `1e-16` before the division, so `update` never divides by zero. -/
theorem C10_pid_delta_pos :
    ∀ (s : PIDStrategy) (now : ℚ), 0 < effective_delta s.last_time now := by
  intro s now
  unfold effective_delta
  split
  · norm_num
  · next h => exact not_le.mp h

/-- C8: `StageManager.add_stage` fails (with
`ValueError("Voltage and time values must be positive.")`) exactly when
`start < 0` or `end < 0` or `duration ≤ 0`; otherwise it appends exactly
one stage holding the three given values to the end of the stage list. -/
theorem C8_add_stage :
    ∀ (stages : List Stage) (voltage_start voltage_end time_duration : ℚ),
      (add_stage stages voltage_start voltage_end time_duration
          = .error "Voltage and time values must be positive."
        ↔ (voltage_start < 0 ∨ voltage_end < 0 ∨ time_duration ≤ 0))
      ∧ (¬(voltage_start < 0 ∨ voltage_end < 0 ∨ time_duration ≤ 0) →
          add_stage stages voltage_start voltage_end time_duration
            = .ok (stages ++ [⟨voltage_start, voltage_end, time_duration⟩])) := by
  intro stages v0 v1 d
  unfold add_stage
  by_cases h : v0 < 0 ∨ v1 < 0 ∨ d ≤ 0 <;> simp [h]

/-- Witness for C8: a valid stage `(1, 2, 3)` is appended to the empty
list. -/
theorem C8_add_stage_witness :
    add_stage [] 1 2 3 = .ok [⟨1, 2, 3⟩] :=
  (C8_add_stage [] 1 2 3).2 (by push_neg; norm_num)

/-- C9: `PowerSupply.get_voltage`/`get_current` are total and never `None`:
`PowerSupply.read` maps every failed or error register read to the raw
value `0`, so a transient read failure yields the measured value `0`; and
in every engine step whose reads go through the `PowerSupply` gateway the
recorded measurement is exactly the gateway's value — the engine's
`None`-substitution branch is unreachable. -/
theorem C9_gateway_total :
    (∀ (V_dot : ℚ) (r : ReadResult), get_voltage_opt V_dot r ≠ none)
    ∧ (∀ (A_dot : ℚ) (r : ReadResult), get_current_opt A_dot r ≠ none)
    ∧ (∀ V_dot : ℚ, get_voltage V_dot .err = 0 ∧ get_voltage V_dot .exn = 0)
    ∧ (∀ (σ : Type) (strategy : Strategy σ) (V_dot A_dot : ℚ)
          (vreads creads : ℕ → ReadResult) (protection : ℕ → ℕ)
          (v0 inc : ℚ) (k : ℕ) (s : LoopState σ),
        (stepBody (powerSupplyEnv strategy V_dot A_dot vreads creads protection)
            v0 inc k s).last_measured_voltage = get_voltage V_dot (vreads s.n)
        ∧ (stepBody (powerSupplyEnv strategy V_dot A_dot vreads creads protection)
            v0 inc k s).last_current = get_current A_dot (creads s.n)) := by
  refine ⟨fun _ _ => by simp [get_voltage_opt],
    fun _ _ => by simp [get_current_opt],
    fun V_dot => ⟨by simp [get_voltage, power_supply.read],
      by simp [get_voltage, power_supply.read]⟩,
    fun σ strategy V_dot A_dot vreads creads protection v0 inc k s => ⟨?_, ?_⟩⟩
  · simp [stepBody, powerSupplyEnv, get_voltage_opt]
  · simp [stepBody, powerSupplyEnv, get_current_opt]

theorem stepBody_protection_irrel (strategy : Strategy σ) (gv gc : ℕ → Option ℚ)
    (p p' : ℕ → ℕ) (v0 inc : ℚ) (k : ℕ) (s : LoopState σ) :
    stepBody ⟨strategy, gv, gc, p⟩ v0 inc k s =
      stepBody ⟨strategy, gv, gc, p'⟩ v0 inc k s := rfl

theorem stepLoop_protection_irrel (strategy : Strategy σ) (gv gc : ℕ → Option ℚ)
    (p p' : ℕ → ℕ) (v0 inc : ℚ) (n : ℕ) (s : LoopState σ) :
    stepLoop ⟨strategy, gv, gc, p⟩ v0 inc n s =
      stepLoop ⟨strategy, gv, gc, p'⟩ v0 inc n s := by
  induction n with
  | zero => rfl
  | succ k ih =>
      rw [stepLoop_succ, stepLoop_succ, ih,
        stepBody_protection_irrel strategy gv gc p p']

theorem runStage_protection_irrel (strategy : Strategy σ) (gv gc : ℕ → Option ℚ)
    (p p' : ℕ → ℕ) (sample_rate : ℚ) (stage : Stage) (s : LoopState σ) :
    runStage ⟨strategy, gv, gc, p⟩ sample_rate stage s =
      runStage ⟨strategy, gv, gc, p'⟩ sample_rate stage s := by
  unfold runStage
  simp only [stepLoop_protection_irrel strategy gv gc p p']

theorem collect_protection_irrel (strategy : Strategy σ) (gv gc : ℕ → Option ℚ)
    (p p' : ℕ → ℕ) (stages : List Stage) (sample_rate : ℚ) (s : LoopState σ) :
    collect_data_with_sample_rate ⟨strategy, gv, gc, p⟩ stages sample_rate s =
      collect_data_with_sample_rate ⟨strategy, gv, gc, p'⟩ stages sample_rate s := by
  induction stages generalizing s with
  | nil => rfl
  | cons st rest ih =>
      have h1 : ∀ (e : Env σ) (x : LoopState σ),
          collect_data_with_sample_rate e (st :: rest) sample_rate x =
            collect_data_with_sample_rate e rest sample_rate
              (runStage e sample_rate st x) := by
        intro e x
        simp [collect_data_with_sample_rate]
      rw [h1, h1, runStage_protection_irrel strategy gv gc p p', ih]

theorem runStage_writes (env : Env σ) (sample_rate : ℚ) (stage : Stage)
    (s : LoopState σ) :
    ∃ w : List ℚ, w.length = (steps stage.time sample_rate).toNat ∧
      (runStage env sample_rate stage s).writes =
        s.writes ++ (stage.voltage_start :: w) ++
          (if stage.voltage_start ≠ stage.voltage_end then [stage.voltage_end]
           else []) := by
  unfold runStage
  obtain ⟨w, hw, hwr⟩ := stepLoop_writes env stage.voltage_start
    (increment stage.voltage_start stage.voltage_end (steps stage.time sample_rate))
    (steps stage.time sample_rate).toNat
    { s with writes := s.writes ++ [stage.voltage_start],
             strat := env.strategy.set_setpoint s.strat stage.voltage_start,
             current_setpoint := stage.voltage_start,
             last_measured_voltage := stage.voltage_start,
             last_control_signal := stage.voltage_start,
             last_current := 0 }
  refine ⟨w, hw, ?_⟩
  by_cases h : stage.voltage_start ≠ stage.voltage_end <;> simp [h, hwr]

/-! ### Claim theorems: the engine's stage/step loop -/

/-- C1 counterexample: for duration `D = 3/2` s at rate `R = 1` Hz the code
computes `steps = max(1, int(D*R)) = 1` — `int()` truncates — whereas the
claimed formula `max(1, ceil(D*R))` gives `2`; observably, the run of that
single stage emits `1 + 1 = 2` records instead of the `2 + 1 = 3` the claim
implies. -/
theorem C1_counterexample :
    steps (3 / 2 : ℚ) 1 = 1
    ∧ max 1 ⌈(3 / 2 : ℚ) * 1⌉ = 2
    ∧ (collect_data_with_sample_rate envLin [⟨0, 1, 3 / 2⟩] 1
        (initState ⟨0⟩)).samples.length = 2 := by
  refine ⟨by norm_num [steps, pyInt, max_def], ?_, ?_⟩
  · have h : ⌈(3 / 2 : ℚ) * 1⌉ = 2 := by
      rw [mul_one, Int.ceil_eq_iff]
      norm_num
    rw [h]
    norm_num [max_def]
  · rw [collect_samples_length]
    norm_num [expected_total, steps, pyInt, max_def, initState]

/-- C1 (amended): for every stage the engine computes
`steps = max(1, int(D * R))` where `int` truncates toward zero (not the
ceiling), the per-step increment is `(v1 - v0) / steps`, and the stage run
emits exactly `steps + 1` records (`steps` step records plus the final
corrective one). -/
theorem C1_steps_increment :
    ∀ (σ : Type) (env : Env σ) (sample_rate : ℚ) (stage : Stage) (s : LoopState σ),
      steps stage.time sample_rate = max 1 (pyInt (stage.time * sample_rate))
      ∧ increment stage.voltage_start stage.voltage_end (steps stage.time sample_rate)
          = (stage.voltage_end - stage.voltage_start) / ((steps stage.time sample_rate : ℤ) : ℚ)
      ∧ (runStage env sample_rate stage s).samples.length
          = s.samples.length + (steps stage.time sample_rate).toNat + 1 := by
  intro σ env sample_rate stage s
  refine ⟨rfl, ?_, runStage_samples_length env sample_rate stage s⟩
  have h := steps_pos stage.time sample_rate
  simp [increment, h.ne']

/-- C3 counterexample: with every protection flag set in the register
(`0x1F`, which `read_protection_state` decodes to
`OVP = OCP = OPP = OTP = SCP = 1`) at every instant, the engine still runs
both stages to completion, emitting all `4` records (one step record plus
one final record per stage).  The claimed per-step protection check and
immediate abort would have stopped the run inside stage 1 and skipped
stage 2. -/
theorem C3_counterexample :
    read_protection_state_flags 0x1F = (1, 1, 1, 1, 1)
    ∧ (∀ k, envLin.protection_state k = 0x1F)
    ∧ (collect_data_with_sample_rate envLin [⟨0, 1, 1⟩, ⟨1, 2, 1⟩] 1
        (initState ⟨0⟩)).samples.length = 4 := by
  refine ⟨by decide, fun k => rfl, ?_⟩
  rw [collect_samples_length]
  norm_num [expected_total, steps, pyInt, max_def, initState]

/-- C3 (amended): the engine's step loop never consults the protection-state
register at all: the entire run result is independent of the register trace,
and every run executes all of its stages to completion — `steps + 1` records
per stage — regardless of any OVP/OCP/OPP/OTP/SCP flags.
(`PowerSupply.read_protection_state` exists but is never invoked by
`collect_data_with_sample_rate`, so a protection trip never aborts a run.) -/
theorem C3_no_protection_check :
    ∀ (σ : Type) (strategy : Strategy σ) (gv gc : ℕ → Option ℚ) (p p' : ℕ → ℕ)
      (stages : List Stage) (sample_rate : ℚ) (s : LoopState σ),
      collect_data_with_sample_rate ⟨strategy, gv, gc, p⟩ stages sample_rate s =
        collect_data_with_sample_rate ⟨strategy, gv, gc, p'⟩ stages sample_rate s
      ∧ (collect_data_with_sample_rate ⟨strategy, gv, gc, p⟩ stages
          sample_rate s).samples.length
          = s.samples.length + expected_total stages sample_rate :=
  fun _σ strategy gv gc p p' stages sample_rate s =>
    ⟨collect_protection_irrel strategy gv gc p p' stages sample_rate s,
     collect_samples_length ⟨strategy, gv, gc, p⟩ stages sample_rate s⟩

/-- C4 counterexample: the gateway does not signal a failed read by
returning `None` — `PowerSupply.get_voltage` maps a failed register read to
`0`, so the engine records `0`, not the last successfully measured value.
Concretely, on a stage `(5, 5, 1)` with every register read failing, the
recorded measured voltages are `[0, 0]`, whereas the claimed substitution
of the last measured value (initialised to `voltage_start = 5`) would have
recorded `[5, 5]`. -/
theorem C4_counterexample :
    get_voltage_opt 1 ReadResult.err = some 0
    ∧ get_voltage_opt 1 ReadResult.err ≠ none
    ∧ (collect_data_with_sample_rate envPSfail [⟨5, 5, 1⟩] 1
        (initState ⟨0⟩)).samples.map ExperimentData.measured_voltage = [0, 0] := by
  refine ⟨by simp [get_voltage_opt, get_voltage, power_supply.read],
    by simp [get_voltage_opt], ?_⟩
  have hsteps : steps (1 : ℚ) 1 = 1 := by norm_num [steps, pyInt, max_def]
  simp [collect_data_with_sample_rate, runStage, hsteps, stepLoop_one, stepBody,
    increment, envPSfail, powerSupplyEnv, linearStrategy, initState,
    control_strategy.LinearStrategy.set_setpoint,
    control_strategy.LinearStrategy.update, get_voltage_opt, get_current_opt,
    get_voltage, get_current, power_supply.read]

/-- C4 (amended): when a `get_voltage`/`get_current` call returns `None`
the engine substitutes the last successfully measured value into the step's
record and the step still completes and emits its sample (a single read
failure never aborts the run); with the `PowerSupply` gateway, however, a
failed read returns the value `0` — not `None` — so a transient failure is
recorded as `0`, and the substitution branch is not exercised. -/
theorem C4_read_failure :
    ∀ (σ : Type) (env : Env σ) (v0 inc : ℚ) (k : ℕ) (s : LoopState σ),
      (env.get_voltage s.n = none →
        (stepBody env v0 inc k s).last_measured_voltage = s.last_measured_voltage)
      ∧ (env.get_current s.n = none →
        (stepBody env v0 inc k s).last_current = s.last_current)
      ∧ (stepBody env v0 inc k s).samples.length = s.samples.length + 1
      ∧ (∀ V_dot : ℚ, get_voltage_opt V_dot .err = some 0
          ∧ get_voltage_opt V_dot .exn = some 0) := by
  intro σ env v0 inc k s
  refine ⟨fun h => by simp [stepBody, h], fun h => by simp [stepBody, h],
    by simp [stepBody], fun V_dot => ?_⟩
  constructor <;> simp [get_voltage_opt, get_voltage, power_supply.read]

/-- Witness for C4: in an environment whose every read is `None`, a step
preserves the last measured voltage and current and still emits its
record. -/
theorem C4_read_failure_witness :
    (stepBody envNone 0 0 0 (initState ⟨0⟩)).last_measured_voltage =
      (initState (⟨0⟩ : control_strategy.LinearStrategy)).last_measured_voltage
    ∧ (stepBody envNone 0 0 0 (initState ⟨0⟩)).last_current =
      (initState (⟨0⟩ : control_strategy.LinearStrategy)).last_current :=
  ⟨(C4_read_failure _ envNone 0 0 0 (initState ⟨0⟩)).1 rfl,
   (C4_read_failure _ envNone 0 0 0 (initState ⟨0⟩)).2.1 rfl⟩

/-- C5 counterexample: the post-loop `set_voltage(voltage_end)` is guarded
by `current_voltage != voltage_end`, and `current_voltage` still holds
`voltage_start` there — so for a stage with `voltage_start = voltage_end`
(e.g. `(5, 5, 1)` at 1 Hz, a hold stage) no force-write happens: the device
sees exactly the prologue write and the one step-control write, `[5, 5]`,
not the three writes (including a final forced `voltage_end`) the claim's
unconditional force-write implies. -/
theorem C5_counterexample :
    (collect_data_with_sample_rate envLin [⟨5, 5, 1⟩] 1
        (initState ⟨0⟩)).writes = [5, 5]
    ∧ (collect_data_with_sample_rate envLin [⟨5, 5, 1⟩] 1
        (initState ⟨0⟩)).writes.length = 2 := by
  have hsteps : steps (1 : ℚ) 1 = 1 := by norm_num [steps, pyInt, max_def]
  constructor <;>
    simp [collect_data_with_sample_rate, runStage, hsteps, stepLoop_one, stepBody,
      increment, envLin, linearStrategy, initState,
      control_strategy.LinearStrategy.set_setpoint,
      control_strategy.LinearStrategy.update]

/-- C5 (amended): for every stage `(v0, v1, D)` the step records carry the
targets `v0 + increment*step` for `step = 0 .. steps-1` and the run appends
exactly one final record whose `target_voltage` is `v1` exactly; when
`increment ≠ 0` no step target ever equals `v1`; and the engine writes `v0`
first, one control signal per step, and then force-writes `v1` — but only
when `v0 ≠ v1` (for a hold stage with `v0 = v1` the final write is
skipped). -/
theorem C5_stage_targets :
    ∀ (σ : Type) (env : Env σ) (sample_rate : ℚ) (stage : Stage) (s : LoopState σ),
      ((runStage env sample_rate stage s).samples.map ExperimentData.target_voltage =
        s.samples.map ExperimentData.target_voltage ++
          (List.range (steps stage.time sample_rate).toNat).map
            (fun k => stage.voltage_start +
              increment stage.voltage_start stage.voltage_end
                (steps stage.time sample_rate) * k) ++
          [stage.voltage_end])
      ∧ (increment stage.voltage_start stage.voltage_end
            (steps stage.time sample_rate) ≠ 0 →
          ∀ k < (steps stage.time sample_rate).toNat,
            stage.voltage_start +
              increment stage.voltage_start stage.voltage_end
                (steps stage.time sample_rate) * k ≠ stage.voltage_end)
      ∧ (∃ w : List ℚ, w.length = (steps stage.time sample_rate).toNat ∧
          (runStage env sample_rate stage s).writes =
            s.writes ++ (stage.voltage_start :: w) ++
              (if stage.voltage_start ≠ stage.voltage_end then [stage.voltage_end]
               else [])) := by
  intro σ env sample_rate stage s
  refine ⟨runStage_samples_target env sample_rate stage s, ?_,
    runStage_writes env sample_rate stage s⟩
  intro hinc k hk heq
  have hpos : (0 : ℤ) < steps stage.time sample_rate := steps_pos stage.time sample_rate
  have hQ : ((steps stage.time sample_rate : ℤ) : ℚ) ≠ 0 := by
    exact_mod_cast hpos.ne'
  have hincdef : increment stage.voltage_start stage.voltage_end
      (steps stage.time sample_rate) =
      (stage.voltage_end - stage.voltage_start) /
        ((steps stage.time sample_rate : ℤ) : ℚ) := by
    simp [increment, hpos.ne']
  have hmul : increment stage.voltage_start stage.voltage_end
      (steps stage.time sample_rate) * ((steps stage.time sample_rate : ℤ) : ℚ) =
      stage.voltage_end - stage.voltage_start := by
    rw [hincdef]
    field_simp
  have hkq : increment stage.voltage_start stage.voltage_end
      (steps stage.time sample_rate) * (k : ℚ) =
      stage.voltage_end - stage.voltage_start := by
    linarith [heq]
  have hcancel : (k : ℚ) = ((steps stage.time sample_rate : ℤ) : ℚ) :=
    mul_left_cancel₀ hinc (hkq.trans hmul.symm)
  have hklt : (k : ℤ) < steps stage.time sample_rate := Int.lt_toNat.mp hk
  have hltq : (k : ℚ) < ((steps stage.time sample_rate : ℤ) : ℚ) := by
    exact_mod_cast hklt
  rw [hcancel] at hltq
  exact lt_irrefl _ hltq

/-- Witness for C5: on the stage `(0, 1, 2)` at 1 Hz there are `2` steps with
increment `1/2`, and the step-`1` target `0 + (1/2)*1` differs from the
terminal voltage `1`. -/
theorem C5_stage_targets_witness :
    increment 0 1 (steps 2 1) ≠ 0
    ∧ (0 : ℚ) + increment 0 1 (steps 2 1) * ((1 : ℕ) : ℚ) ≠ 1 := by
  have hinc : increment 0 1 (steps 2 1) ≠ 0 := by
    norm_num [increment, steps, pyInt, max_def]
  have hk : (1 : ℕ) < (steps (2 : ℚ) 1).toNat := by
    norm_num [steps, pyInt, max_def]
  exact ⟨hinc,
    (C5_stage_targets _ envLin 1 ⟨0, 1, 2⟩ (initState ⟨0⟩)).2.1 hinc 1 hk⟩

/-! ### Claim theorems: the data pipeline -/

/-- C2 counterexample: the producer does not block on a full storage queue —
`collect_data_for_stage` uses `put_nowait` and its `except queue.Full`
handler drops the record.  With a storage queue of capacity 1 already
holding one record, a newly produced record is discarded (the queue is
unchanged), so it never reaches the `StorageSink`; and when the live-view
(plot) queue is full, the shared handler skips the storage enqueue as well
even though the storage queue is empty. -/
theorem C2_counterexample :
    (collect_data_for_stage ⟨false, 0, [], 1, [some ⟨0, 0, 0, 0⟩]⟩
        ⟨1, 1, 1, 1⟩).storage_queue = [some ⟨0, 0, 0, 0⟩]
    ∧ (collect_data_for_stage ⟨true, 1, [(0, 0)], 1000, []⟩
        ⟨1, 1, 1, 1⟩).storage_queue = [] := by
  constructor <;> simp [collect_data_for_stage, queue_full]

/-- C2 (amended): a produced record is appended to the storage queue — in
producer order, behind all earlier records — only when neither the storage
queue nor the (present) live-view queue is full; if either is full the
record is dropped, not blocked on (`put_nowait` with a shared `queue.Full`
handler, by design: "Dropping datasets to prevent blocking").  The storage
worker drains its queue strictly in FIFO order up to the `close()`
sentinel, so every record that was enqueued reaches the `StorageSink` in
order with no gaps. -/
theorem C2_storage_channel :
    ∀ (c : DataCollector) (d : ExperimentData),
      (¬((c.has_plot_queue : Prop) ∧ queue_full c.plot_maxsize c.plot_queue.length) →
       ¬ queue_full c.storage_maxsize c.storage_queue.length →
        (collect_data_for_stage c d).storage_queue = c.storage_queue ++ [some d])
      ∧ (((c.has_plot_queue : Prop) ∧ queue_full c.plot_maxsize c.plot_queue.length) ∨
          queue_full c.storage_maxsize c.storage_queue.length →
        (collect_data_for_stage c d).storage_queue = c.storage_queue)
      ∧ (∀ q : List ExperimentData, storage_worker (q.map some ++ [none]) = q) := by
  intro c d
  refine ⟨fun hplot hstore => ?_, fun h => ?_, fun q => ?_⟩
  · cases hb : c.has_plot_queue <;> simp_all [collect_data_for_stage]
  · rcases h with h | h
    · simp [collect_data_for_stage, h]
    · by_cases hplot : (c.has_plot_queue : Prop) ∧
          queue_full c.plot_maxsize c.plot_queue.length
      · simp [collect_data_for_stage, hplot]
      · cases hb : c.has_plot_queue <;>
          simp_all [collect_data_for_stage, h]
  · induction q with
    | nil => simp [storage_worker]
    | cons x xs ih => simp [storage_worker, ih]

/-- Witness for C2: with no plot queue and an empty storage queue of
capacity 1000, a produced record is appended; draining a two-record queue
up to the sentinel stores both records in order. -/
theorem C2_storage_channel_witness :
    (collect_data_for_stage ⟨false, 0, [], 1000, []⟩
        ⟨1, 2, 3, 4⟩).storage_queue = [some ⟨1, 2, 3, 4⟩]
    ∧ storage_worker ([⟨1, 2, 3, 4⟩, ⟨5, 6, 7, 8⟩].map some ++ [none]) =
        [⟨1, 2, 3, 4⟩, ⟨5, 6, 7, 8⟩] :=
  ⟨(C2_storage_channel ⟨false, 0, [], 1000, []⟩ ⟨1, 2, 3, 4⟩).1
      (by simp) (by simp [queue_full]),
   (C2_storage_channel ⟨false, 0, [], 1000, []⟩ ⟨1, 2, 3, 4⟩).2.2
      [⟨1, 2, 3, 4⟩, ⟨5, 6, 7, 8⟩]⟩
